import Mathlib

/-!
Verification of the apex-engineer realtime session client.

The development embeds the two live-session view components of the
repository — the `LiveCoach` screen (src/unnamed/part_003 and the variant in
src/unnamed/part_002) and the `SetupAssistant` screen (src/unnamed/part_000) —
as explicit state machines.  Browser media objects (tracks, audio contexts,
buffer source nodes) are modelled by small records that carry exactly the
observable facts the handlers read or write: whether stop() has been called,
the context state, the scheduled start time.  Handlers that in the source are
event callbacks become functions from state (plus the data the environment
supplies: the current audio-context time, the Date.now() millisecond value,
the received server message) to state; teardown functions additionally return
a report of the cleanup calls they made on the objects they detach.
-/

namespace ApexEngineer

/-- A MediaStreamTrack, abstracted to whether stop() has been called on it. -/
structure Track where
  stopped : Bool
deriving DecidableEq

/-- track.stop() -/
def Track.stop (t : Track) : Track := { t with stopped := true }

/-- A MediaStream is its list of tracks (stream.getTracks()). -/
abbrev MediaStream := List Track

/-- stream.getTracks().forEach(t => t.stop()) -/
def stopTracks (ts : MediaStream) : MediaStream := ts.map Track.stop

/-- The state of an AudioContext. -/
inductive CtxState
  | running
  | closed
deriving DecidableEq

/-- An AudioContext: its state, and whether close() has been requested on it. -/
structure AudioCtx where
  ctxState : CtxState
  closeRequested : Bool
deriving DecidableEq

/-- ctx.close(): close is requested and the context state becomes closed. -/
def AudioCtx.close (_c : AudioCtx) : AudioCtx :=
  { ctxState := .closed, closeRequested := true }

/-- The guard both components use around close():
if (ctx.state !== "closed") ctx.close(). -/
def closeUnlessClosed (c : AudioCtx) : AudioCtx :=
  if c.ctxState = CtxState.closed then c else c.close

/-- Whether the guarded close() call fires on an optional context ref. -/
def closeCalled (c : Option AudioCtx) : Bool :=
  match c with
  | some ctx => if ctx.ctxState = CtxState.closed then false else true
  | none => false

/-- An AudioBufferSourceNode as the output pipeline uses it: the start time it
was scheduled with, the duration of its buffer, and whether stop() was
called. -/
structure Source where
  startTime : ℚ
  duration : ℚ
  stopped : Bool
deriving DecidableEq

/-- source.stop() -/
def Source.stop (s : Source) : Source := { s with stopped := true }

/-- Modelled from the spec: services/audioUtils decodeAudioData is not under
src/; its result is a decoded output audio buffer, abstracted here to the one
field the handlers read, its duration in seconds. -/
structure AudioBuffer where
  duration : ℚ
deriving DecidableEq

/-- Modelled from the spec: services/audioUtils createPcmBlob is not under
src/; the spec describes the input pipeline as capturing microphone audio,
chunking it and base64-encoding it, so a PCM media blob is abstracted to the
sample chunk it encodes together with its mime type. -/
structure PcmBlob where
  samples : List ℚ
  mimeType : String
deriving DecidableEq

/-- Modelled from the spec: the conversion of one Float32 sample chunk into
one PCM media blob. -/
def createPcmBlob (samples : List ℚ) : PcmBlob :=
  { samples := samples, mimeType := "audio/pcm;rate=16000" }

/-- The audio-processing event's input buffer: its channels, each a list of
samples. -/
structure InputBuffer where
  channels : List (List ℚ)
deriving DecidableEq

/-- e.inputBuffer.getChannelData(i) -/
def InputBuffer.getChannelData (b : InputBuffer) (i : Nat) : List ℚ :=
  b.channels.getD i []

/-- The scriptProcessor.onaudioprocess handler used identically by both
components (src/unnamed/part_003 lines 110-116, src/unnamed/part_000 lines
280-284): take channel 0 of the input buffer, build one PCM blob, and send
exactly that one chunk to the session.  The function returns the single chunk
sent by one tick. -/
def onaudioprocess (e : InputBuffer) : PcmBlob :=
  createPcmBlob (e.getChannelData 0)

/-- The chunks sent over a run of audio-processing ticks, in tick order. -/
def sentChunks (ticks : List InputBuffer) : List PcmBlob :=
  ticks.map onaudioprocess

/-- Report of the side effects of one teardown run: whether clearInterval was
called, the final values of the media objects that were detached (with stop()
applied to their tracks and sources), and whether close() was called on each
audio context. -/
structure StopReport where
  intervalCleared : Bool
  micFinal : Option MediaStream
  screenFinal : Option MediaStream
  sourcesFinal : List Source
  outputCloseCalled : Bool
  inputCloseCalled : Bool
deriving DecidableEq

/-- The report of a run in which every teardown branch was skipped. -/
def StopReport.empty : StopReport :=
  { intervalCleared := false
    micFinal := none
    screenFinal := none
    sourcesFinal := []
    outputCloseCalled := false
    inputCloseCalled := false }

/-- Two scheduled sources do not overlap: the first ends (start time plus
duration) no later than the second starts. -/
def NoOverlap (a b : Source) : Prop :=
  a.startTime + a.duration ≤ b.startTime

/-- The output scheduling loop both components run on received audio chunks,
restricted to the data it touches: the shared cursor and the tracked source
list.  Each chunk is a pair (outputCtx.currentTime at arrival, buffer
duration); the cursor is first raised to max(cursor, currentTime), that value
is the new source's start time, and the cursor then advances by the
duration. -/
def scheduleRun : ℚ → List Source → List (ℚ × ℚ) → ℚ × List Source
  | cursor, srcs, [] => (cursor, srcs)
  | cursor, srcs, (ct, dur) :: rest =>
      scheduleRun (max cursor ct + dur)
        (srcs ++ [{ startTime := max cursor ct, duration := dur, stopped := false }]) rest

namespace LiveCoach

/-- The mutable state of the LiveCoach component: the React state hooks and
the refs its session handlers touch (src/unnamed/part_003 lines 11-27). -/
structure State where
  isActive : Bool
  error : Option String
  status : String
  isScreenSharing : Bool
  frameInterval : Option Nat
  micStream : Option MediaStream
  screenStream : Option MediaStream
  outputCtx : Option AudioCtx
  inputCtx : Option AudioCtx
  nextStartTime : ℚ
  sources : List Source
deriving DecidableEq

/-- stopSession (src/unnamed/part_003 lines 32-70, identical in
src/unnamed/part_002 lines 296-330): clear the frame interval, stop every
track of both streams and null the refs, stop every tracked source and clear
the set, close each audio context unless already closed and null the refs,
and reset the flags and status. -/
def stopSession (s : State) : State × StopReport :=
  ({ isActive := false
     error := s.error
     status := "Disconnected"
     isScreenSharing := false
     frameInterval := none
     micStream := none
     screenStream := none
     outputCtx := none
     inputCtx := none
     nextStartTime := s.nextStartTime
     sources := [] },
   { intervalCleared := s.frameInterval.isSome
     micFinal := s.micStream.map stopTracks
     screenFinal := s.screenStream.map stopTracks
     sourcesFinal := s.sources.map Source.stop
     outputCloseCalled := closeCalled s.outputCtx
     inputCloseCalled := closeCalled s.inputCtx })

/-- A live server message, restricted to the fields the LiveCoach onmessage
handler reads: the decoded model audio chunk, if any, and the interrupted
flag. -/
structure ServerMessage where
  audioData : Option AudioBuffer
  interrupted : Bool
deriving DecidableEq

/-- The onmessage callback (src/unnamed/part_003 lines 121-152): on model
audio, raise the shared cursor to max(cursor, outputCtx.currentTime), start a
new source at that value, advance the cursor by the buffer duration and track
the source; on interrupted, stop every tracked source, clear the set and
reset the cursor to 0.  `ct` is outputCtx.currentTime when the message is
handled; the second component returns the final values of the sources stopped
by the interrupted branch. -/
def onmessage (ct : ℚ) (m : ServerMessage) (s : State) : State × List Source :=
  let s1 :=
    match m.audioData with
    | some buf =>
        let start := max s.nextStartTime ct
        { s with
          nextStartTime := start + buf.duration
          sources := s.sources ++ [{ startTime := start, duration := buf.duration, stopped := false }] }
    | none => s
  if m.interrupted then
    ({ s1 with sources := [], nextStartTime := 0 }, s1.sources.map Source.stop)
  else
    (s1, [])

/-- The catch block of startSession (src/unnamed/part_003 lines 176-180):
setError(e.message || "Failed to start session") then stopSession().  `emsg`
is none when the thrown error has no usable message. -/
def startSessionCatch (emsg : Option String) (s : State) : State × StopReport :=
  stopSession { s with error := some (emsg.getD "Failed to start session") }

/-- The onerror live callback (src/unnamed/part_003 lines 157-161):
setError("Connection Error") then stopSession(). -/
def onerrorCallback (s : State) : State × StopReport :=
  stopSession { s with error := some "Connection Error" }

/-- The catch block of startScreenShare (src/unnamed/part_003 lines 232-236,
src/unnamed/part_002 lines 533-537): only setError with the screen-share
message; no teardown of any kind. -/
def startScreenShareCatch (emsg : Option String) (s : State) : State :=
  { s with error := some ("Screen share error: " ++ emsg.getD "Permission denied or cancelled") }

/-- Fold the onmessage handler over a sequence of received output audio
chunks, one decoded chunk per message and no interruptions; each list entry
is (outputCtx.currentTime at arrival, chunk duration). -/
def runChunks (s : State) : List (ℚ × ℚ) → State
  | [] => s
  | (ct, dur) :: rest =>
      runChunks (onmessage ct { audioData := some { duration := dur }, interrupted := false } s).1 rest

/-- A concrete LiveCoach state with a connected session: one live microphone
track, both audio contexts running, no screen share yet. -/
def sampleActive : State :=
  { isActive := true
    error := none
    status := "Connected! Listening..."
    isScreenSharing := false
    frameInterval := none
    micStream := some [{ stopped := false }]
    screenStream := none
    outputCtx := some { ctxState := .running, closeRequested := false }
    inputCtx := some { ctxState := .running, closeRequested := false }
    nextStartTime := 0
    sources := [] }

/-- A LiveCoach state before any session: everything null, flags down. -/
def freshState : State :=
  { isActive := false
    error := none
    status := "Ready to Connect"
    isScreenSharing := false
    frameInterval := none
    micStream := none
    screenStream := none
    outputCtx := none
    inputCtx := none
    nextStartTime := 0
    sources := [] }

end LiveCoach

namespace SetupAssistant

/-- A chat message role. -/
inductive Role
  | user
  | model
deriving DecidableEq

/-- A generated setup file: filename and raw text content (src/types.ts). -/
structure SetupFile where
  filename : String
  content : String
deriving DecidableEq

/-- A chat message (src/types.ts): identifier, role, text, optional attached
image, optional generated setup file, timestamp. -/
structure ChatMessage where
  id : String
  role : Role
  text : String
  image : Option String
  setupFile : Option SetupFile
  timestamp : Nat
deriving DecidableEq

/-- A function call carried by a server message toolCall: its name, call id,
and the save_setup_json arguments it may carry. -/
structure FunctionCall where
  name : String
  callId : String
  filename : String
  content : String
deriving DecidableEq

/-- The mutable state of the SetupAssistant component: its React state hooks
and the refs its handlers touch (src/unnamed/part_000 lines 33-68). -/
structure State where
  messages : List ChatMessage
  inputText : String
  selectedImage : Option String
  isLoading : Bool
  isLive : Bool
  liveStatus : String
  isScreenSharing : Bool
  currentTranscript : String
  transcriptBuffer : String
  frameInterval : Option Nat
  micStream : Option MediaStream
  screenStream : Option MediaStream
  outputCtx : Option AudioCtx
  inputCtx : Option AudioCtx
  nextStartTime : ℚ
  sources : List Source
deriving DecidableEq

/-- The greeting message the chat starts with (src/unnamed/part_000 lines
34-39). -/
def initMessage : ChatMessage :=
  { id := "init"
    role := .model
    text := "Hello! I\x27m your ACC Setup Engineer. We can discuss your car\x27s handling via voice or text. When we find a good configuration, just ask me to generate the setup file for you."
    image := none
    setupFile := none
    timestamp := 0 }

/-- The initial component state. -/
def initState : State :=
  { messages := [initMessage]
    inputText := ""
    selectedImage := none
    isLoading := false
    isLive := false
    liveStatus := "Ready"
    isScreenSharing := false
    currentTranscript := ""
    transcriptBuffer := ""
    frameInterval := none
    micStream := none
    screenStream := none
    outputCtx := none
    inputCtx := none
    nextStartTime := 0
    sources := [] }

/-- setMessages(prev => [...prev, m]) -/
def appendMessage (m : ChatMessage) (s : State) : State :=
  { s with messages := s.messages ++ [m] }

/-- The model message flushing an accumulated transcript `buf` to the chat:
id Date.now().toString(), the speaker-emoji prefixed text, timestamp now. -/
def flushMessage (now : Nat) (buf : String) : ChatMessage :=
  { id := Nat.repr now
    role := .model
    text := "🔊 " ++ buf
    image := none
    setupFile := none
    timestamp := now }

/-- stopLiveSession (src/unnamed/part_000 lines 164-203): clear the frame
interval, stop every track of both streams and null the refs, stop every
tracked source and clear the set, close each audio context unless already
closed (the refs are kept), reset the flags and status, then flush any
pending non-empty transcript buffer to the chat.  `now` is Date.now() at the
flush. -/
def stopLiveSession (now : Nat) (s : State) : State × StopReport :=
  let base : State :=
    { s with
      frameInterval := none
      micStream := none
      screenStream := none
      sources := []
      outputCtx := s.outputCtx.map closeUnlessClosed
      inputCtx := s.inputCtx.map closeUnlessClosed
      isLive := false
      isScreenSharing := false
      liveStatus := "Ready" }
  let final : State :=
    if s.transcriptBuffer = "" then base
    else
      { base with
        messages := base.messages ++ [flushMessage now s.transcriptBuffer]
        transcriptBuffer := ""
        currentTranscript := "" }
  (final,
   { intervalCleared := s.frameInterval.isSome
     micFinal := s.micStream.map stopTracks
     screenFinal := s.screenStream.map stopTracks
     sourcesFinal := s.sources.map Source.stop
     outputCloseCalled := closeCalled s.outputCtx
     inputCloseCalled := closeCalled s.inputCtx })

/-- The user message built by handleSendMessage (src/unnamed/part_000 lines
96-102). -/
def newUserMessage (now : Nat) (s : State) : ChatMessage :=
  { id := Nat.repr now
    role := .user
    text := s.inputText
    image := s.selectedImage
    setupFile := none
    timestamp := now }

/-- The synchronous part of handleSendMessage (src/unnamed/part_000 lines
93-107): bail out when there is neither trimmed text nor an image or a load
is in flight; otherwise append the user message, clear the input and image,
and set the loading flag. -/
def handleSendMessage (now : Nat) (s : State) : State :=
  if (s.inputText.trim = "" ∧ s.selectedImage = none) ∨ s.isLoading then s
  else
    { (appendMessage (newUserMessage now s) s) with
      inputText := ""
      selectedImage := none
      isLoading := true }

/-- The model reply appended when generateContent resolves (src/unnamed/
part_000 lines 140-147): text response.text || a fallback, id
(Date.now() + 1).toString().  `txt` is none when response.text is absent or
empty. -/
def replyMessage (now : Nat) (txt : Option String) : ChatMessage :=
  { id := Nat.repr (now + 1)
    role := .model
    text := txt.getD "I couldn\x27t generate a response."
    image := none
    setupFile := none
    timestamp := now }

/-- Resolution of the generateContent call: append the reply and clear the
loading flag. -/
def handleReplySuccess (now : Nat) (txt : Option String) (s : State) : State :=
  { (appendMessage (replyMessage now txt) s) with isLoading := false }

/-- The inline error message appended by the handleSendMessage catch block
(src/unnamed/part_000 lines 149-156). -/
def errorReplyMessage (now : Nat) : ChatMessage :=
  { id := Nat.repr (now + 1)
    role := .model
    text := "Error connecting to the API."
    image := none
    setupFile := none
    timestamp := now }

/-- Rejection of the generateContent call: append the inline error message
and clear the loading flag. -/
def handleReplyFailure (now : Nat) (s : State) : State :=
  { (appendMessage (errorReplyMessage now) s) with isLoading := false }

/-- The inline system message appended by the startScreenShare catch block
(src/unnamed/part_000 lines 243-251). -/
def screenShareFailMessage (now : Nat) : ChatMessage :=
  { id := Nat.repr now
    role := .model
    text := "System: Screen share failed or was cancelled."
    image := none
    setupFile := none
    timestamp := now }

/-- The startScreenShare catch block: only append the inline system message;
no teardown of any kind. -/
def handleScreenShareFail (now : Nat) (s : State) : State :=
  appendMessage (screenShareFailMessage now) s

/-- The model message appended for one save_setup_json function call
(src/unnamed/part_000 lines 329-342): the setup file carries exactly the
filename and content strings of the tool-call arguments. -/
def saveSetupMessage (now : Nat) (fc : FunctionCall) : ChatMessage :=
  { id := Nat.repr now
    role := .model
    text := "I\x27ve generated the setup file for you based on our session."
    image := none
    setupFile := some { filename := fc.filename, content := fc.content }
    timestamp := now }

/-- The toolCall branch of onmessage (src/unnamed/part_000 lines 326-354):
functionCalls.forEach, appending one message per save_setup_json call. -/
def handleToolCall (now : Nat) (calls : List FunctionCall) (s : State) : State :=
  calls.foldl
    (fun st fc =>
      if fc.name == "save_setup_json" then appendMessage (saveSetupMessage now fc) st else st)
    s

/-- A live server message, restricted to the fields the SetupAssistant
onmessage handler reads: the decoded model audio chunk, the output
transcription text part, the turnComplete flag, and the toolCall function
calls (empty when the message carries no toolCall). -/
structure ServerMessage where
  audioData : Option AudioBuffer
  outputTranscription : Option String
  turnComplete : Bool
  toolCalls : List FunctionCall
deriving DecidableEq

/-- The onmessage callback (src/unnamed/part_000 lines 288-355), in source
order: (1) schedule model audio with the shared cursor, (2) accumulate the
transcript part in the buffer and mirror it to the live preview, (3) on
turnComplete flush a non-whitespace buffer to the chat and reset buffer and
preview, (4) handle save_setup_json tool calls.  `ct` is
outputCtx.currentTime, `now` is Date.now() while the message is handled. -/
def onmessage (ct : ℚ) (now : Nat) (m : ServerMessage) (s : State) : State :=
  let s1 :=
    match m.audioData with
    | some buf =>
        let start := max s.nextStartTime ct
        { s with
          nextStartTime := start + buf.duration
          sources := s.sources ++ [{ startTime := start, duration := buf.duration, stopped := false }] }
    | none => s
  let s2 :=
    match m.outputTranscription with
    | some part =>
        { s1 with
          transcriptBuffer := s1.transcriptBuffer ++ part
          currentTranscript := s1.transcriptBuffer ++ part }
    | none => s1
  let s3 :=
    if m.turnComplete then
      if s2.transcriptBuffer.trim = "" then s2
      else
        { (appendMessage (flushMessage now s2.transcriptBuffer) s2) with
          transcriptBuffer := ""
          currentTranscript := "" }
    else s2
  handleToolCall now m.toolCalls s3

/-- downloadSetup (src/unnamed/part_000 lines 385-395): the file offered for
download, made of a Blob holding exactly the content string, under the given
filename. -/
structure DownloadedFile where
  name : String
  bytes : String
deriving DecidableEq

/-- downloadSetup builds the blob from the raw content string verbatim. -/
def downloadSetup (filename content : String) : DownloadedFile :=
  { name := filename, bytes := content }

/-- The events that drive the SetupAssistant state, each carrying the data
the environment supplies to the corresponding handler (`now` is the
Date.now() millisecond observed while the handler runs). -/
inductive Event
  | userSend (now : Nat)
  | replySuccess (now : Nat) (txt : Option String)
  | replyFailure (now : Nat)
  | screenShareFail (now : Nat)
  | serverMessage (ct : ℚ) (now : Nat) (m : ServerMessage)
  | liveError (now : Nat)
  | startLiveFail (now : Nat)
  | stopLive (now : Nat)
  | clearChat
deriving DecidableEq

/-- One step of the component: dispatch an event to its handler.  liveError
is the onerror live callback (setLiveStatus("Error") then stopLiveSession),
startLiveFail the startLiveSession catch block (setLiveStatus("Connection
Failed") then stopLiveSession), clearChat the clear-chat button
(setMessages([]), src/unnamed/part_000 line 442). -/
def step (e : Event) (s : State) : State :=
  match e with
  | .userSend now => handleSendMessage now s
  | .replySuccess now txt => handleReplySuccess now txt s
  | .replyFailure now => handleReplyFailure now s
  | .screenShareFail now => handleScreenShareFail now s
  | .serverMessage ct now m => onmessage ct now m s
  | .liveError now => (stopLiveSession now { s with liveStatus := "Error" }).1
  | .startLiveFail now => (stopLiveSession now { s with liveStatus := "Connection Failed" }).1
  | .stopLive now => (stopLiveSession now s).1
  | .clearChat => { s with messages := [] }

/-- Run a sequence of events. -/
def run (s : State) : List Event → State
  | [] => s
  | e :: es => run (step e s) es

/-- The messages an event appends to the chat, as a function of the state the
event fires in. -/
def newMsgs (e : Event) (s : State) : List ChatMessage :=
  match e with
  | .userSend now =>
      if (s.inputText.trim = "" ∧ s.selectedImage = none) ∨ s.isLoading then []
      else [newUserMessage now s]
  | .replySuccess now txt => [replyMessage now txt]
  | .replyFailure now => [errorReplyMessage now]
  | .screenShareFail now => [screenShareFailMessage now]
  | .serverMessage _ now m =>
      (match m.outputTranscription with
       | some part =>
           if m.turnComplete then
             if (s.transcriptBuffer ++ part).trim = "" then []
             else [flushMessage now (s.transcriptBuffer ++ part)]
           else []
       | none =>
           if m.turnComplete then
             if s.transcriptBuffer.trim = "" then []
             else [flushMessage now s.transcriptBuffer]
           else [])
      ++ (m.toolCalls.filter (fun fc => fc.name == "save_setup_json")).map (saveSetupMessage now)
  | .liveError now => if s.transcriptBuffer = "" then [] else [flushMessage now s.transcriptBuffer]
  | .startLiveFail now => if s.transcriptBuffer = "" then [] else [flushMessage now s.transcriptBuffer]
  | .stopLive now => if s.transcriptBuffer = "" then [] else [flushMessage now s.transcriptBuffer]
  | .clearChat => []

/-- The identifier strings drawn for the messages an event creates. -/
def newIds (e : Event) (s : State) : List String :=
  (newMsgs e s).map ChatMessage.id

/-- All identifier strings drawn along a run, in creation order. -/
def tracedIds (s : State) : List Event → List String
  | [] => []
  | e :: es => newIds e s ++ tracedIds (step e s) es

/-- Fold the onmessage handler over a sequence of received output audio
chunks, one decoded chunk per message, with no transcript, turn completion or
tool calls; each list entry is (outputCtx.currentTime at arrival, chunk
duration). -/
def runChunks (now : Nat) (s : State) : List (ℚ × ℚ) → State
  | [] => s
  | (ct, dur) :: rest =>
      runChunks now
        (onmessage ct now
          { audioData := some { duration := dur }
            outputTranscription := none
            turnComplete := false
            toolCalls := [] } s) rest

/-- The server message carrying two save_setup_json function calls used to
exhibit duplicate message identifiers. -/
def twoSaveCalls : ServerMessage :=
  { audioData := none
    outputTranscription := none
    turnComplete := false
    toolCalls :=
      [{ name := "save_setup_json", callId := "call-1", filename := "a.json", content := "x" },
       { name := "save_setup_json", callId := "call-2", filename := "b.json", content := "y" }] }

end SetupAssistant

/-! General lemmas about the media objects. -/

lemma stopTracks_stopped (ts : MediaStream) : ∀ t ∈ stopTracks ts, t.stopped = true := by
  intro t ht
  rcases List.mem_map.1 ht with ⟨u, _, rfl⟩
  rfl

lemma mapStop_stopped (xs : List Source) : ∀ x ∈ xs.map Source.stop, x.stopped = true := by
  intro x hx
  rcases List.mem_map.1 hx with ⟨u, _, rfl⟩
  rfl

lemma closeUnlessClosed_ctxState (c : AudioCtx) :
    (closeUnlessClosed c).ctxState = CtxState.closed := by
  by_cases h : c.ctxState = CtxState.closed <;> simp [closeUnlessClosed, AudioCtx.close, h]

lemma closeUnlessClosed_idem (c : AudioCtx) :
    closeUnlessClosed (closeUnlessClosed c) = closeUnlessClosed c := by
  by_cases h : c.ctxState = CtxState.closed <;>
    simp [closeUnlessClosed, AudioCtx.close, h]

lemma map_closeUnlessClosed_idem (o : Option AudioCtx) :
    (o.map closeUnlessClosed).map closeUnlessClosed = o.map closeUnlessClosed := by
  cases o <;> simp [closeUnlessClosed_idem]

lemma map_comp_closeUnlessClosed (o : Option AudioCtx) :
    Option.map (closeUnlessClosed ∘ closeUnlessClosed) o = Option.map closeUnlessClosed o := by
  cases o <;> simp [closeUnlessClosed_idem]

lemma closeCalled_map_closeUnlessClosed (o : Option AudioCtx) :
    closeCalled (o.map closeUnlessClosed) = false := by
  cases o with
  | none => rfl
  | some c => simp [closeCalled, closeUnlessClosed_ctxState]

/-! The output scheduling invariant (claim C1). -/

lemma scheduleRun_inv :
    ∀ (chunks : List (ℚ × ℚ)) (cursor : ℚ) (srcs : List Source),
      (∀ p ∈ chunks, 0 ≤ p.2) →
      (∀ x ∈ srcs, x.startTime + x.duration ≤ cursor) →
      srcs.Pairwise NoOverlap →
      (scheduleRun cursor srcs chunks).2.Pairwise NoOverlap ∧
        ∀ x ∈ (scheduleRun cursor srcs chunks).2,
          x.startTime + x.duration ≤ (scheduleRun cursor srcs chunks).1 := by
  intro chunks
  induction chunks with
  | nil =>
      intro cursor srcs _ hb hp
      exact ⟨hp, hb⟩
  | cons p rest ih =>
      intro cursor srcs hd hb hp
      obtain ⟨ct, dur⟩ := p
      have hdur : (0:ℚ) ≤ dur := hd (ct, dur) (List.mem_cons_self _ _)
      have hmax : cursor ≤ max cursor ct := le_max_left _ _
      simp only [scheduleRun]
      apply ih
      · intro q hq
        exact hd q (List.mem_cons_of_mem _ hq)
      · intro x hx
        rcases List.mem_append.1 hx with h | h
        · exact le_trans (hb x h) (le_trans hmax (le_add_of_nonneg_right hdur))
        · rcases List.mem_singleton.1 h with rfl
          exact le_refl _
      · rw [List.pairwise_append]
        refine ⟨hp, ?_, ?_⟩
        · simp
        · intro a ha b hbmem
          rcases List.mem_singleton.1 hbmem with rfl
          exact le_trans (hb a ha) hmax

lemma liveCoach_onmessage_audio (ct dur : ℚ) (s : LiveCoach.State) :
    (LiveCoach.onmessage ct { audioData := some { duration := dur }, interrupted := false } s).1
      = { s with
          nextStartTime := max s.nextStartTime ct + dur
          sources := s.sources
              ++ [{ startTime := max s.nextStartTime ct, duration := dur, stopped := false }] } := rfl

lemma liveCoach_runChunks_sched :
    ∀ (chunks : List (ℚ × ℚ)) (s : LiveCoach.State),
      (LiveCoach.runChunks s chunks).nextStartTime
          = (scheduleRun s.nextStartTime s.sources chunks).1 ∧
        (LiveCoach.runChunks s chunks).sources
          = (scheduleRun s.nextStartTime s.sources chunks).2 := by
  intro chunks
  induction chunks with
  | nil => intro s; exact ⟨rfl, rfl⟩
  | cons p rest ih =>
      intro s
      obtain ⟨ct, dur⟩ := p
      have h := ih
        { s with
          nextStartTime := max s.nextStartTime ct + dur
          sources := s.sources
              ++ [{ startTime := max s.nextStartTime ct, duration := dur, stopped := false }] }
      simp only [scheduleRun, LiveCoach.runChunks, liveCoach_onmessage_audio]
      exact h

lemma setup_onmessage_audio (ct : ℚ) (now : Nat) (dur : ℚ) (s : SetupAssistant.State) :
    SetupAssistant.onmessage ct now
        { audioData := some { duration := dur }
          outputTranscription := none
          turnComplete := false
          toolCalls := [] } s
      = { s with
          nextStartTime := max s.nextStartTime ct + dur
          sources := s.sources
              ++ [{ startTime := max s.nextStartTime ct, duration := dur, stopped := false }] } := rfl

lemma setup_runChunks_sched :
    ∀ (chunks : List (ℚ × ℚ)) (now : Nat) (s : SetupAssistant.State),
      (SetupAssistant.runChunks now s chunks).nextStartTime
          = (scheduleRun s.nextStartTime s.sources chunks).1 ∧
        (SetupAssistant.runChunks now s chunks).sources
          = (scheduleRun s.nextStartTime s.sources chunks).2 := by
  intro chunks
  induction chunks with
  | nil => intro now s; exact ⟨rfl, rfl⟩
  | cons p rest ih =>
      intro now s
      obtain ⟨ct, dur⟩ := p
      have h := ih now
        { s with
          nextStartTime := max s.nextStartTime ct + dur
          sources := s.sources
              ++ [{ startTime := max s.nextStartTime ct, duration := dur, stopped := false }] }
      simp only [scheduleRun, SetupAssistant.runChunks, setup_onmessage_audio]
      exact h

/-- Claim C1: for every live session and every sequence of received output
audio chunks, each chunk is scheduled to start no earlier than the end (start
time plus duration) of the previously scheduled chunk: the single shared
cursor nextStartTime is first raised to max(cursor, context currentTime),
that value is used as the new chunk's start time, and the cursor is then
advanced by the chunk's duration, so no two scheduled chunks overlap.  The
first and third conjuncts state the cursor mechanism for one received chunk
in the LiveCoach and SetupAssistant onmessage handlers; the second and fourth
state that over any chunk sequence with nonnegative durations, starting from
a session with no tracked sources, the scheduled sources are pairwise
non-overlapping (hence consecutively chained end-before-start). -/
theorem c1_output_scheduling_no_overlap :
    (∀ (ct dur : ℚ) (s : LiveCoach.State),
        (LiveCoach.onmessage ct { audioData := some { duration := dur }, interrupted := false } s).1.nextStartTime
            = max s.nextStartTime ct + dur ∧
          (LiveCoach.onmessage ct { audioData := some { duration := dur }, interrupted := false } s).1.sources
            = s.sources
                ++ [{ startTime := max s.nextStartTime ct, duration := dur, stopped := false }]) ∧
    (∀ (chunks : List (ℚ × ℚ)) (s : LiveCoach.State),
        s.sources = [] →
        (∀ p ∈ chunks, 0 ≤ p.2) →
        (LiveCoach.runChunks s chunks).sources.Pairwise NoOverlap ∧
          (LiveCoach.runChunks s chunks).sources.Chain' NoOverlap) ∧
    (∀ (ct dur : ℚ) (now : Nat) (s : SetupAssistant.State),
        (SetupAssistant.onmessage ct now
            { audioData := some { duration := dur }
              outputTranscription := none
              turnComplete := false
              toolCalls := [] } s).nextStartTime
            = max s.nextStartTime ct + dur ∧
          (SetupAssistant.onmessage ct now
            { audioData := some { duration := dur }
              outputTranscription := none
              turnComplete := false
              toolCalls := [] } s).sources
            = s.sources
                ++ [{ startTime := max s.nextStartTime ct, duration := dur, stopped := false }]) ∧
    (∀ (chunks : List (ℚ × ℚ)) (now : Nat) (s : SetupAssistant.State),
        s.sources = [] →
        (∀ p ∈ chunks, 0 ≤ p.2) →
        (SetupAssistant.runChunks now s chunks).sources.Pairwise NoOverlap ∧
          (SetupAssistant.runChunks now s chunks).sources.Chain' NoOverlap) := by
  refine ⟨?_, ?_, ?_, ?_⟩
  · intro ct dur s
    exact ⟨rfl, rfl⟩
  · intro chunks s hs hd
    have h := (liveCoach_runChunks_sched chunks s).2
    have hinv := scheduleRun_inv chunks s.nextStartTime s.sources hd
      (by rw [hs]; intro x hx; cases hx) (by rw [hs]; exact List.Pairwise.nil)
    rw [h]
    exact ⟨hinv.1, hinv.1.chain'⟩
  · intro ct dur now s
    exact ⟨rfl, rfl⟩
  · intro chunks now s hs hd
    have h := (setup_runChunks_sched chunks now s).2
    have hinv := scheduleRun_inv chunks s.nextStartTime s.sources hd
      (by rw [hs]; intro x hx; cases hx) (by rw [hs]; exact List.Pairwise.nil)
    rw [h]
    exact ⟨hinv.1, hinv.1.chain'⟩

/-- Witness for C1: two concrete chunks, the second arriving while the first
is still playing, are scheduled without overlap. -/
theorem c1_witness :
    (LiveCoach.runChunks LiveCoach.freshState
        [((0:ℚ), (1:ℚ)), ((1/2 : ℚ), (2:ℚ))]).sources.Pairwise NoOverlap :=
  (c1_output_scheduling_no_overlap.2.1 [((0:ℚ), (1:ℚ)), ((1/2 : ℚ), (2:ℚ))]
    LiveCoach.freshState rfl (by decide)).1

/-- Claim C8: in the LiveCoach onmessage handler, whenever a server message
with serverContent.interrupted arrives, every currently tracked audio source
is stopped, the tracked source set becomes empty, and the scheduling cursor
is reset to 0 — so audio scheduled before an interruption is never left
playing or pending after it.  The stopped sources returned by the handler all
carry stopped = true and cover the whole tracked set at that point, including
a source scheduled by the same message. -/
theorem c8_interrupted_stops_all_sources :
    ∀ (ct : ℚ) (m : LiveCoach.ServerMessage) (s : LiveCoach.State),
      m.interrupted = true →
      (LiveCoach.onmessage ct m s).1.sources = [] ∧
        (LiveCoach.onmessage ct m s).1.nextStartTime = 0 ∧
        (∀ x ∈ (LiveCoach.onmessage ct m s).2, x.stopped = true) ∧
        (LiveCoach.onmessage ct m s).2.length
          = s.sources.length + (match m.audioData with | some _ => 1 | none => 0) := by
  intro ct m s h
  obtain ⟨ad, intr⟩ := m
  simp only at h
  subst h
  cases ad with
  | none => exact ⟨rfl, rfl, mapStop_stopped _, by simp [LiveCoach.onmessage]⟩
  | some buf => exact ⟨rfl, rfl, mapStop_stopped _, by simp [LiveCoach.onmessage]⟩

/-- Witness for C8: an interrupted message arriving while one chunk is
tracked and another is carried by the same message. -/
theorem c8_witness :
    (LiveCoach.onmessage 2
        { audioData := some { duration := 3 }, interrupted := true }
        { LiveCoach.sampleActive with
          nextStartTime := 5
          sources := [{ startTime := 1, duration := 4, stopped := false }] }).1.sources = [] ∧
      (LiveCoach.onmessage 2
        { audioData := some { duration := 3 }, interrupted := true }
        { LiveCoach.sampleActive with
          nextStartTime := 5
          sources := [{ startTime := 1, duration := 4, stopped := false }] }).1.nextStartTime = 0 ∧
      (LiveCoach.onmessage 2
        { audioData := some { duration := 3 }, interrupted := true }
        { LiveCoach.sampleActive with
          nextStartTime := 5
          sources := [{ startTime := 1, duration := 4, stopped := false }] }).2.length = 2 := by
  have h := c8_interrupted_stops_all_sources 2
    { audioData := some { duration := 3 }, interrupted := true }
    { LiveCoach.sampleActive with
      nextStartTime := 5
      sources := [{ startTime := 1, duration := 4, stopped := false }] } rfl
  exact ⟨h.1, h.2.1, h.2.2.2⟩

/-- Canonical form of stopLiveSession's resulting state. -/
lemma stopLiveSession_fst (now : Nat) (s : SetupAssistant.State) :
    (SetupAssistant.stopLiveSession now s).1
      = { s with
          messages := s.messages
              ++ (if s.transcriptBuffer = "" then []
                  else [SetupAssistant.flushMessage now s.transcriptBuffer])
          transcriptBuffer := ""
          currentTranscript := if s.transcriptBuffer = "" then s.currentTranscript else ""
          frameInterval := none
          micStream := none
          screenStream := none
          sources := []
          outputCtx := s.outputCtx.map closeUnlessClosed
          inputCtx := s.inputCtx.map closeUnlessClosed
          isLive := false
          isScreenSharing := false
          liveStatus := "Ready" } := by
  by_cases hb : s.transcriptBuffer = "" <;> simp [SetupAssistant.stopLiveSession, hb]

/-- Claim C4: after stopSession (LiveCoach) or stopLiveSession
(SetupAssistant) returns, regardless of the prior state: the frame-capture
interval is cleared, every track of the microphone stream and of the
screen-share stream has been stopped and the stream refs are null, every
tracked audio source has been stopped and the tracked set is empty, each of
the two audio contexts has had close requested unless it was already closed,
and the active and screen-sharing flags are false. -/
theorem c4_teardown_postconditions :
    (∀ s : LiveCoach.State,
        (LiveCoach.stopSession s).1.frameInterval = none ∧
        (LiveCoach.stopSession s).1.micStream = none ∧
        (LiveCoach.stopSession s).1.screenStream = none ∧
        (LiveCoach.stopSession s).1.sources = [] ∧
        (LiveCoach.stopSession s).1.isActive = false ∧
        (LiveCoach.stopSession s).1.isScreenSharing = false ∧
        (∀ ts, s.micStream = some ts →
          (LiveCoach.stopSession s).2.micFinal = some (stopTracks ts)) ∧
        (∀ ts, s.screenStream = some ts →
          (LiveCoach.stopSession s).2.screenFinal = some (stopTracks ts)) ∧
        (∀ ts ∈ (LiveCoach.stopSession s).2.micFinal, ∀ t ∈ ts, t.stopped = true) ∧
        (∀ ts ∈ (LiveCoach.stopSession s).2.screenFinal, ∀ t ∈ ts, t.stopped = true) ∧
        (LiveCoach.stopSession s).2.sourcesFinal.length = s.sources.length ∧
        (∀ x ∈ (LiveCoach.stopSession s).2.sourcesFinal, x.stopped = true) ∧
        (∀ c ∈ s.outputCtx, c.ctxState ≠ CtxState.closed →
          (LiveCoach.stopSession s).2.outputCloseCalled = true) ∧
        (∀ c ∈ s.inputCtx, c.ctxState ≠ CtxState.closed →
          (LiveCoach.stopSession s).2.inputCloseCalled = true)) ∧
    (∀ (now : Nat) (s : SetupAssistant.State),
        (SetupAssistant.stopLiveSession now s).1.frameInterval = none ∧
        (SetupAssistant.stopLiveSession now s).1.micStream = none ∧
        (SetupAssistant.stopLiveSession now s).1.screenStream = none ∧
        (SetupAssistant.stopLiveSession now s).1.sources = [] ∧
        (SetupAssistant.stopLiveSession now s).1.isLive = false ∧
        (SetupAssistant.stopLiveSession now s).1.isScreenSharing = false ∧
        (∀ ts, s.micStream = some ts →
          (SetupAssistant.stopLiveSession now s).2.micFinal = some (stopTracks ts)) ∧
        (∀ ts, s.screenStream = some ts →
          (SetupAssistant.stopLiveSession now s).2.screenFinal = some (stopTracks ts)) ∧
        (∀ ts ∈ (SetupAssistant.stopLiveSession now s).2.micFinal, ∀ t ∈ ts, t.stopped = true) ∧
        (∀ ts ∈ (SetupAssistant.stopLiveSession now s).2.screenFinal, ∀ t ∈ ts, t.stopped = true) ∧
        (SetupAssistant.stopLiveSession now s).2.sourcesFinal.length = s.sources.length ∧
        (∀ x ∈ (SetupAssistant.stopLiveSession now s).2.sourcesFinal, x.stopped = true) ∧
        (∀ c ∈ s.outputCtx, c.ctxState ≠ CtxState.closed →
          ∃ c', (SetupAssistant.stopLiveSession now s).1.outputCtx = some c' ∧
            c'.closeRequested = true ∧ c'.ctxState = CtxState.closed) ∧
        (∀ c ∈ s.inputCtx, c.ctxState ≠ CtxState.closed →
          ∃ c', (SetupAssistant.stopLiveSession now s).1.inputCtx = some c' ∧
            c'.closeRequested = true ∧ c'.ctxState = CtxState.closed)) := by
  constructor
  · intro s
    refine ⟨rfl, rfl, rfl, rfl, rfl, rfl, ?_, ?_, ?_, ?_, by simp [LiveCoach.stopSession],
      mapStop_stopped _, ?_, ?_⟩
    · intro ts hts; simp [LiveCoach.stopSession, hts]
    · intro ts hts; simp [LiveCoach.stopSession, hts]
    · intro ts hts t ht
      cases hmic : s.micStream with
      | none => simp [LiveCoach.stopSession, hmic] at hts
      | some u =>
          simp [LiveCoach.stopSession, hmic] at hts
          subst hts
          exact stopTracks_stopped u t ht
    · intro ts hts t ht
      cases hscr : s.screenStream with
      | none => simp [LiveCoach.stopSession, hscr] at hts
      | some u =>
          simp [LiveCoach.stopSession, hscr] at hts
          subst hts
          exact stopTracks_stopped u t ht
    · intro c hc hne
      rw [Option.mem_def] at hc
      simp [LiveCoach.stopSession, closeCalled, hc, hne]
    · intro c hc hne
      rw [Option.mem_def] at hc
      simp [LiveCoach.stopSession, closeCalled, hc, hne]
  · intro now s
    refine ⟨?_, ?_, ?_, ?_, ?_, ?_, ?_, ?_, ?_, ?_, by simp [SetupAssistant.stopLiveSession],
      mapStop_stopped _, ?_, ?_⟩
    · rw [stopLiveSession_fst]
    · rw [stopLiveSession_fst]
    · rw [stopLiveSession_fst]
    · rw [stopLiveSession_fst]
    · rw [stopLiveSession_fst]
    · rw [stopLiveSession_fst]
    · intro ts hts; simp [SetupAssistant.stopLiveSession, hts]
    · intro ts hts; simp [SetupAssistant.stopLiveSession, hts]
    · intro ts hts t ht
      cases hmic : s.micStream with
      | none => simp [SetupAssistant.stopLiveSession, hmic] at hts
      | some u =>
          simp [SetupAssistant.stopLiveSession, hmic] at hts
          subst hts
          exact stopTracks_stopped u t ht
    · intro ts hts t ht
      cases hscr : s.screenStream with
      | none => simp [SetupAssistant.stopLiveSession, hscr] at hts
      | some u =>
          simp [SetupAssistant.stopLiveSession, hscr] at hts
          subst hts
          exact stopTracks_stopped u t ht
    · intro c hc hne
      rw [Option.mem_def] at hc
      refine ⟨closeUnlessClosed c, ?_, ?_, closeUnlessClosed_ctxState c⟩
      · rw [stopLiveSession_fst]
        simp [hc]
      · simp [closeUnlessClosed, AudioCtx.close, hne]
    · intro c hc hne
      rw [Option.mem_def] at hc
      refine ⟨closeUnlessClosed c, ?_, ?_, closeUnlessClosed_ctxState c⟩
      · rw [stopLiveSession_fst]
        simp [hc]
      · simp [closeUnlessClosed, AudioCtx.close, hne]

/-- Witness for C4: tearing down the concrete connected LiveCoach state stops
its microphone track and requests close on its running output context. -/
theorem c4_witness :
    (LiveCoach.stopSession LiveCoach.sampleActive).2.micFinal
        = some (stopTracks [{ stopped := false }]) ∧
      (LiveCoach.stopSession LiveCoach.sampleActive).2.outputCloseCalled = true ∧
      (LiveCoach.stopSession LiveCoach.sampleActive).1.micStream = none := by
  have h := c4_teardown_postconditions.1 LiveCoach.sampleActive
  exact ⟨h.2.2.2.2.2.2.1 [{ stopped := false }] rfl,
    h.2.2.2.2.2.2.2.2.2.2.2.2.1 { ctxState := .running, closeRequested := false } rfl (by decide),
    h.2.1⟩

/-- Claim C10: session teardown is idempotent: running stopSession (or
stopLiveSession) a second time, immediately after a completed run with no
intervening operations, performs no further state change and makes no
cleanup call — every teardown branch is guarded (null interval and stream
refs, empty source set, audio contexts only closed when their state is not
already closed), which the empty second report records. -/
theorem c10_teardown_idempotent :
    (∀ s : LiveCoach.State,
        LiveCoach.stopSession (LiveCoach.stopSession s).1
          = ((LiveCoach.stopSession s).1, StopReport.empty)) ∧
    (∀ (n1 n2 : Nat) (s : SetupAssistant.State),
        SetupAssistant.stopLiveSession n2 (SetupAssistant.stopLiveSession n1 s).1
          = ((SetupAssistant.stopLiveSession n1 s).1, StopReport.empty)) := by
  constructor
  · intro s
    rfl
  · intro n1 n2 s
    rw [stopLiveSession_fst n1 s]
    refine Prod.ext ?_ ?_
    · rw [stopLiveSession_fst]
      simp [map_closeUnlessClosed_idem, map_comp_closeUnlessClosed]
    · simp [SetupAssistant.stopLiveSession, StopReport.empty, closeCalled_map_closeUnlessClosed]

/-- Counterexample to Claim C3 as stated: a screen-share permission failure
caught in startScreenShare is surfaced as an error string, yet the live
session is NOT torn down — the microphone track keeps running unstopped, the
audio contexts stay open, and the session stays active.  This contradicts
"for every error caught by the program ... the live session is fully torn
down (all media handles stopped, audio contexts closed)". -/
theorem c3_counterexample :
    (LiveCoach.startScreenShareCatch (some "Permission denied") LiveCoach.sampleActive).error
        = some "Screen share error: Permission denied" ∧
      (LiveCoach.startScreenShareCatch (some "Permission denied") LiveCoach.sampleActive).isActive
        = true ∧
      (LiveCoach.startScreenShareCatch (some "Permission denied") LiveCoach.sampleActive).micStream
        = some [{ stopped := false }] ∧
      (LiveCoach.startScreenShareCatch (some "Permission denied") LiveCoach.sampleActive).outputCtx
        = some { ctxState := CtxState.running, closeRequested := false } :=
  ⟨rfl, rfl, rfl, rfl⟩

/-- Claim C3 as amended: every caught error is surfaced (as an error or
status string, or as an inline chat message), and no error path retries or
partially recovers; session-start failures and the in-session error callback
additionally tear the session fully down, while a screen-share failure only
surfaces the error and leaves the whole live session state untouched (in the
SetupAssistant the teardown also resets the transient failure status to
Ready). -/
theorem c3_errors_surfaced_teardown_amended :
    (∀ (emsg : Option String) (s : LiveCoach.State),
        (LiveCoach.startSessionCatch emsg s).1.error = some (emsg.getD "Failed to start session") ∧
        (LiveCoach.startSessionCatch emsg s).1.isActive = false ∧
        (LiveCoach.startSessionCatch emsg s).1.micStream = none ∧
        (LiveCoach.startSessionCatch emsg s).1.screenStream = none ∧
        (LiveCoach.startSessionCatch emsg s).1.sources = [] ∧
        (LiveCoach.startSessionCatch emsg s).1.outputCtx = none ∧
        (LiveCoach.startSessionCatch emsg s).1.inputCtx = none ∧
        (LiveCoach.startSessionCatch emsg s).1.frameInterval = none ∧
        (∀ x ∈ (LiveCoach.startSessionCatch emsg s).2.sourcesFinal, x.stopped = true) ∧
        (∀ ts ∈ (LiveCoach.startSessionCatch emsg s).2.micFinal, ∀ t ∈ ts, t.stopped = true)) ∧
    (∀ s : LiveCoach.State,
        (LiveCoach.onerrorCallback s).1.error = some "Connection Error" ∧
        (LiveCoach.onerrorCallback s).1.isActive = false ∧
        (LiveCoach.onerrorCallback s).1.micStream = none ∧
        (LiveCoach.onerrorCallback s).1.screenStream = none ∧
        (LiveCoach.onerrorCallback s).1.sources = [] ∧
        (LiveCoach.onerrorCallback s).1.outputCtx = none ∧
        (LiveCoach.onerrorCallback s).1.inputCtx = none) ∧
    (∀ (emsg : Option String) (s : LiveCoach.State),
        (LiveCoach.startScreenShareCatch emsg s).error
            = some ("Screen share error: " ++ emsg.getD "Permission denied or cancelled") ∧
        (LiveCoach.startScreenShareCatch emsg s).isActive = s.isActive ∧
        (LiveCoach.startScreenShareCatch emsg s).status = s.status ∧
        (LiveCoach.startScreenShareCatch emsg s).micStream = s.micStream ∧
        (LiveCoach.startScreenShareCatch emsg s).screenStream = s.screenStream ∧
        (LiveCoach.startScreenShareCatch emsg s).outputCtx = s.outputCtx ∧
        (LiveCoach.startScreenShareCatch emsg s).inputCtx = s.inputCtx ∧
        (LiveCoach.startScreenShareCatch emsg s).sources = s.sources ∧
        (LiveCoach.startScreenShareCatch emsg s).frameInterval = s.frameInterval ∧
        (LiveCoach.startScreenShareCatch emsg s).nextStartTime = s.nextStartTime) ∧
    (∀ (now : Nat) (s : SetupAssistant.State),
        (SetupAssistant.handleScreenShareFail now s).messages
            = s.messages ++ [SetupAssistant.screenShareFailMessage now] ∧
        (SetupAssistant.handleScreenShareFail now s).isLive = s.isLive ∧
        (SetupAssistant.handleScreenShareFail now s).liveStatus = s.liveStatus ∧
        (SetupAssistant.handleScreenShareFail now s).micStream = s.micStream ∧
        (SetupAssistant.handleScreenShareFail now s).screenStream = s.screenStream ∧
        (SetupAssistant.handleScreenShareFail now s).outputCtx = s.outputCtx ∧
        (SetupAssistant.handleScreenShareFail now s).inputCtx = s.inputCtx ∧
        (SetupAssistant.handleScreenShareFail now s).sources = s.sources ∧
        (SetupAssistant.handleScreenShareFail now s).frameInterval = s.frameInterval) ∧
    (∀ (now : Nat) (s : SetupAssistant.State),
        (SetupAssistant.step (SetupAssistant.Event.liveError now) s).isLive = false ∧
        (SetupAssistant.step (SetupAssistant.Event.liveError now) s).isScreenSharing = false ∧
        (SetupAssistant.step (SetupAssistant.Event.liveError now) s).micStream = none ∧
        (SetupAssistant.step (SetupAssistant.Event.liveError now) s).screenStream = none ∧
        (SetupAssistant.step (SetupAssistant.Event.liveError now) s).sources = [] ∧
        (SetupAssistant.step (SetupAssistant.Event.liveError now) s).frameInterval = none ∧
        (SetupAssistant.step (SetupAssistant.Event.liveError now) s).liveStatus = "Ready") ∧
    (∀ (now : Nat) (s : SetupAssistant.State),
        (SetupAssistant.step (SetupAssistant.Event.startLiveFail now) s).isLive = false ∧
        (SetupAssistant.step (SetupAssistant.Event.startLiveFail now) s).isScreenSharing = false ∧
        (SetupAssistant.step (SetupAssistant.Event.startLiveFail now) s).micStream = none ∧
        (SetupAssistant.step (SetupAssistant.Event.startLiveFail now) s).screenStream = none ∧
        (SetupAssistant.step (SetupAssistant.Event.startLiveFail now) s).sources = [] ∧
        (SetupAssistant.step (SetupAssistant.Event.startLiveFail now) s).frameInterval = none ∧
        (SetupAssistant.step (SetupAssistant.Event.startLiveFail now) s).liveStatus = "Ready") := by
  refine ⟨?_, ?_, ?_, ?_, ?_, ?_⟩
  · intro emsg s
    refine ⟨rfl, rfl, rfl, rfl, rfl, rfl, rfl, rfl, mapStop_stopped _, ?_⟩
    intro ts hts t ht
    cases hmic : s.micStream with
    | none => simp [LiveCoach.startSessionCatch, LiveCoach.stopSession, hmic] at hts
    | some u =>
        simp [LiveCoach.startSessionCatch, LiveCoach.stopSession, hmic] at hts
        subst hts
        exact stopTracks_stopped u t ht
  · intro s
    exact ⟨rfl, rfl, rfl, rfl, rfl, rfl, rfl⟩
  · intro emsg s
    exact ⟨rfl, rfl, rfl, rfl, rfl, rfl, rfl, rfl, rfl, rfl⟩
  · intro now s
    exact ⟨rfl, rfl, rfl, rfl, rfl, rfl, rfl, rfl, rfl⟩
  · intro now s
    simp only [SetupAssistant.step]
    rw [stopLiveSession_fst]
    exact ⟨rfl, rfl, rfl, rfl, rfl, rfl, rfl⟩
  · intro now s
    simp only [SetupAssistant.step]
    rw [stopLiveSession_fst]
    exact ⟨rfl, rfl, rfl, rfl, rfl, rfl, rfl⟩

/-- Witness for the amended C3: a start-session failure on the concrete
connected state surfaces the thrown message and stops the detached microphone
track. -/
theorem c3_amended_witness :
    (LiveCoach.startSessionCatch (some "boom") LiveCoach.sampleActive).1.error = some "boom" ∧
      (LiveCoach.startSessionCatch (some "boom") LiveCoach.sampleActive).1.isActive = false ∧
      Track.stopped { stopped := true } = true := by
  have h := c3_errors_surfaced_teardown_amended.1 (some "boom") LiveCoach.sampleActive
  exact ⟨h.1, h.2.1,
    h.2.2.2.2.2.2.2.2.2 (stopTracks [{ stopped := false }]) rfl { stopped := true } (by decide)⟩

/-- Canonical form of the toolCall forEach: it appends one message per
save_setup_json call and changes nothing else. -/
lemma handleToolCall_eq :
    ∀ (calls : List SetupAssistant.FunctionCall) (now : Nat) (s : SetupAssistant.State),
      SetupAssistant.handleToolCall now calls s
        = { s with
            messages := s.messages
                ++ (calls.filter fun fc => fc.name == "save_setup_json").map
                    (SetupAssistant.saveSetupMessage now) } := by
  intro calls
  induction calls with
  | nil =>
      intro now s
      simp [SetupAssistant.handleToolCall]
  | cons fc rest ih =>
      intro now s
      simp only [SetupAssistant.handleToolCall, List.foldl_cons]
      by_cases h : (fc.name == "save_setup_json") = true
      · rw [if_pos h]
        have hre := ih now (SetupAssistant.appendMessage (SetupAssistant.saveSetupMessage now fc) s)
        simp only [SetupAssistant.handleToolCall] at hre
        rw [hre]
        simp [SetupAssistant.appendMessage, List.filter_cons, h]
      · rw [if_neg h]
        have hre := ih now s
        simp only [SetupAssistant.handleToolCall] at hre
        rw [hre]
        simp [List.filter_cons, h]

/-- The messages produced by one server message are exactly the optional
turn-complete flush followed by the save_setup_json messages. -/
lemma onmessage_messages (ct : ℚ) (now : Nat) (m : SetupAssistant.ServerMessage)
    (s : SetupAssistant.State) :
    (SetupAssistant.onmessage ct now m s).messages
      = s.messages ++ SetupAssistant.newMsgs (SetupAssistant.Event.serverMessage ct now m) s := by
  obtain ⟨ad, ot, tc, tcs⟩ := m
  cases ad <;> cases ot <;> cases tc <;>
    simp only [SetupAssistant.onmessage, SetupAssistant.newMsgs, handleToolCall_eq,
      SetupAssistant.appendMessage] <;>
    split_ifs <;> simp

/-- Every event either appends its new messages at the tail or, for
clearChat, empties the list. -/
lemma step_messages :
    ∀ (e : SetupAssistant.Event) (s : SetupAssistant.State),
      (SetupAssistant.step e s).messages = s.messages ++ SetupAssistant.newMsgs e s
        ∨ ((SetupAssistant.step e s).messages = [] ∧ e = SetupAssistant.Event.clearChat) := by
  intro e s
  cases e with
  | userSend now =>
      left
      by_cases h : (s.inputText.trim = "" ∧ s.selectedImage = none) ∨ s.isLoading
      · simp [SetupAssistant.step, SetupAssistant.handleSendMessage, SetupAssistant.newMsgs, h]
      · simp [SetupAssistant.step, SetupAssistant.handleSendMessage, SetupAssistant.newMsgs, h,
          SetupAssistant.appendMessage]
  | replySuccess now txt => left; rfl
  | replyFailure now => left; rfl
  | screenShareFail now => left; rfl
  | serverMessage ct now m => left; exact onmessage_messages ct now m s
  | liveError now =>
      left
      rw [show SetupAssistant.step (SetupAssistant.Event.liveError now) s
            = (SetupAssistant.stopLiveSession now { s with liveStatus := "Error" }).1 from rfl,
        stopLiveSession_fst]
      simp [SetupAssistant.newMsgs]
  | startLiveFail now =>
      left
      rw [show SetupAssistant.step (SetupAssistant.Event.startLiveFail now) s
            = (SetupAssistant.stopLiveSession now { s with liveStatus := "Connection Failed" }).1
          from rfl,
        stopLiveSession_fst]
      simp [SetupAssistant.newMsgs]
  | stopLive now =>
      left
      rw [show SetupAssistant.step (SetupAssistant.Event.stopLive now) s
            = (SetupAssistant.stopLiveSession now s).1 from rfl,
        stopLiveSession_fst]
      simp [SetupAssistant.newMsgs]
  | clearChat => right; exact ⟨rfl, rfl⟩

/-- Along any run, the identifiers present in the chat form a sublist of the
initially present identifiers followed by the drawn ones. -/
lemma run_ids_sublist :
    ∀ (es : List SetupAssistant.Event) (s : SetupAssistant.State),
      List.Sublist ((SetupAssistant.run s es).messages.map SetupAssistant.ChatMessage.id)
        (s.messages.map SetupAssistant.ChatMessage.id ++ SetupAssistant.tracedIds s es) := by
  intro es
  induction es with
  | nil =>
      intro s
      simp only [SetupAssistant.run, SetupAssistant.tracedIds, List.append_nil]
      exact List.Sublist.refl _
  | cons e rest ih =>
      intro s
      have hrun : SetupAssistant.run s (e :: rest)
          = SetupAssistant.run (SetupAssistant.step e s) rest := rfl
      rw [hrun]
      simp only [SetupAssistant.tracedIds]
      rcases step_messages e s with h | ⟨h, _⟩
      · have hih := ih (SetupAssistant.step e s)
        rw [h] at hih
        simpa [SetupAssistant.newIds, List.map_append, List.append_assoc] using hih
      · have hih := ih (SetupAssistant.step e s)
        rw [h] at hih
        simp only [List.map_nil, List.nil_append] at hih
        exact hih.trans ((List.sublist_append_right _ _).trans (List.sublist_append_right _ _))

/-- Claim C5: every update to the chat messages list either appends new
messages at the tail — each setMessages call appending exactly one — leaving
all previously held messages unchanged and in their original order, or (on
clear chat) replaces the whole list with the empty list; no operation edits,
reorders, or selectively removes an existing message. -/
theorem c5_messages_append_only_or_cleared :
    (∀ (m : SetupAssistant.ChatMessage) (s : SetupAssistant.State),
        (SetupAssistant.appendMessage m s).messages = s.messages ++ [m]) ∧
    (∀ (e : SetupAssistant.Event) (s : SetupAssistant.State),
        (SetupAssistant.step e s).messages = s.messages ++ SetupAssistant.newMsgs e s
          ∨ ((SetupAssistant.step e s).messages = [] ∧ e = SetupAssistant.Event.clearChat)) :=
  ⟨fun _ _ => rfl, step_messages⟩

/-- Claim C6: whenever a save_setup_json tool call is received, the setup
file attached to the appended chat message carries exactly the filename
string and the raw content string from the tool-call arguments, with no
validation or structural parsing of the content (the equalities hold for
every argument string), and downloading that file produces the content string
verbatim. -/
theorem c6_setup_file_verbatim :
    (∀ (now : Nat) (calls : List SetupAssistant.FunctionCall) (s : SetupAssistant.State),
        (SetupAssistant.handleToolCall now calls s).messages
          = s.messages
              ++ (calls.filter fun fc => fc.name == "save_setup_json").map
                  (SetupAssistant.saveSetupMessage now)) ∧
    (∀ (now : Nat) (fc : SetupAssistant.FunctionCall),
        (SetupAssistant.saveSetupMessage now fc).setupFile
          = some { filename := fc.filename, content := fc.content }) ∧
    (∀ filename content : String,
        SetupAssistant.downloadSetup filename content = { name := filename, bytes := content }) :=
  ⟨fun now calls s => by rw [handleToolCall_eq], fun _ _ => rfl, fun _ _ => rfl⟩

/-- Counterexample to Claim C2 as stated: one server message carrying two
save_setup_json function calls, handled in a single forEach at millisecond
1000, appends two messages that share the identifier "1000" — identifiers
are not distinct in exactly the scenario the claim singles out. -/
theorem c2_counterexample :
    ((SetupAssistant.step
        (SetupAssistant.Event.serverMessage 0 1000 SetupAssistant.twoSaveCalls)
        SetupAssistant.initState).messages.map SetupAssistant.ChatMessage.id)
      = ["init", "1000", "1000"] := by
  rfl

/-- Claim C2 as amended: message identifiers are pairwise distinct provided
the identifier strings drawn at creation time (from Date.now() and the +1
offset) are pairwise distinct and distinct from the initial "init"
identifier; several save_setup_json calls handled in one forEach draw the
same millisecond and therefore violate that proviso. -/
theorem c2_unique_ids_amended :
    ∀ es : List SetupAssistant.Event,
      ("init" :: SetupAssistant.tracedIds SetupAssistant.initState es).Pairwise (· ≠ ·) →
      ((SetupAssistant.run SetupAssistant.initState es).messages.map
          SetupAssistant.ChatMessage.id).Pairwise (· ≠ ·) := by
  intro es h
  exact List.Pairwise.sublist (run_ids_sublist es SetupAssistant.initState) h

/-- Witness for the amended C2: a run with one failed send reply draws the
fresh identifier "8", and the chat identifiers stay pairwise distinct. -/
theorem c2_amended_witness :
    ((SetupAssistant.run SetupAssistant.initState
        [SetupAssistant.Event.replyFailure 7]).messages.map
          SetupAssistant.ChatMessage.id).Pairwise (· ≠ ·) :=
  c2_unique_ids_amended [SetupAssistant.Event.replyFailure 7] (by decide)

/-- Claim C9: output transcript text parts are accumulated in the buffer in
arrival order (mirrored to the live preview, messages untouched); a
turnComplete message with a non-whitespace buffer appends exactly one model
message whose text is the speaker-emoji prefix followed by the full
accumulated buffer and resets buffer and preview; a whitespace-only buffer is
neither flushed nor cleared on turnComplete (the state is unchanged); and any
non-empty buffer remaining when the session stops is flushed to the chat by
stopLiveSession. -/
theorem c9_transcript_accumulate_flush :
    (∀ (ct : ℚ) (now : Nat) (part : String) (s : SetupAssistant.State),
        (SetupAssistant.onmessage ct now
            { audioData := none, outputTranscription := some part,
              turnComplete := false, toolCalls := [] } s).transcriptBuffer
            = s.transcriptBuffer ++ part ∧
          (SetupAssistant.onmessage ct now
            { audioData := none, outputTranscription := some part,
              turnComplete := false, toolCalls := [] } s).currentTranscript
            = s.transcriptBuffer ++ part ∧
          (SetupAssistant.onmessage ct now
            { audioData := none, outputTranscription := some part,
              turnComplete := false, toolCalls := [] } s).messages = s.messages) ∧
    (∀ (ct : ℚ) (now : Nat) (s : SetupAssistant.State),
        ¬ s.transcriptBuffer.trim = "" →
        (SetupAssistant.onmessage ct now
            { audioData := none, outputTranscription := none,
              turnComplete := true, toolCalls := [] } s).messages
            = s.messages ++ [SetupAssistant.flushMessage now s.transcriptBuffer] ∧
          (SetupAssistant.onmessage ct now
            { audioData := none, outputTranscription := none,
              turnComplete := true, toolCalls := [] } s).transcriptBuffer = "" ∧
          (SetupAssistant.onmessage ct now
            { audioData := none, outputTranscription := none,
              turnComplete := true, toolCalls := [] } s).currentTranscript = "") ∧
    (∀ (ct : ℚ) (now : Nat) (s : SetupAssistant.State),
        s.transcriptBuffer.trim = "" →
        SetupAssistant.onmessage ct now
            { audioData := none, outputTranscription := none,
              turnComplete := true, toolCalls := [] } s = s) ∧
    (∀ (now : Nat) (s : SetupAssistant.State),
        ¬ s.transcriptBuffer = "" →
        (SetupAssistant.stopLiveSession now s).1.messages
            = s.messages ++ [SetupAssistant.flushMessage now s.transcriptBuffer] ∧
          (SetupAssistant.stopLiveSession now s).1.transcriptBuffer = "" ∧
          (SetupAssistant.stopLiveSession now s).1.currentTranscript = "") := by
  refine ⟨?_, ?_, ?_, ?_⟩
  · intro ct now part s
    exact ⟨rfl, rfl, rfl⟩
  · intro ct now s h
    refine ⟨?_, ?_, ?_⟩ <;>
      simp [SetupAssistant.onmessage, SetupAssistant.handleToolCall, SetupAssistant.appendMessage, h]
  · intro ct now s h
    simp [SetupAssistant.onmessage, SetupAssistant.handleToolCall, h]
  · intro now s h
    rw [stopLiveSession_fst]
    simp [h]

/-- Witness for C9: a transcript part "Hi" accumulates into the empty buffer,
and a pending buffer "Hi" is flushed to the chat by stopLiveSession with its
state reset. -/
theorem c9_witness :
    (SetupAssistant.onmessage 0 7
        { audioData := none, outputTranscription := some "Hi",
          turnComplete := false, toolCalls := [] }
        SetupAssistant.initState).transcriptBuffer = "" ++ "Hi" ∧
    (SetupAssistant.stopLiveSession 9
        { SetupAssistant.initState with transcriptBuffer := "Hi" }).1.messages
      = SetupAssistant.initState.messages ++ [SetupAssistant.flushMessage 9 "Hi"] ∧
    (SetupAssistant.stopLiveSession 9
        { SetupAssistant.initState with transcriptBuffer := "Hi" }).1.transcriptBuffer = "" := by
  have hflush := c9_transcript_accumulate_flush.2.2.2 9
    { SetupAssistant.initState with transcriptBuffer := "Hi" } (by decide)
  exact ⟨(c9_transcript_accumulate_flush.1 0 7 "Hi" SetupAssistant.initState).1,
    hflush.1, hflush.2.1⟩

/-- Claim C7: while a live session's input pipeline is running, every
audio-processing tick takes exactly channel 0 of the 4096-sample input
buffer, converts it to one PCM media blob, and sends exactly that one chunk
to the session, so the chunks sent are the channel-0 samples partitioned in
tick order. -/
theorem c7_input_ticks_channel0 :
    (∀ e : InputBuffer, onaudioprocess e = createPcmBlob (e.getChannelData 0)) ∧
    (∀ ticks : List InputBuffer,
        sentChunks ticks = ticks.map onaudioprocess ∧
          (sentChunks ticks).length = ticks.length) ∧
    (∀ ticks : List InputBuffer,
        ((sentChunks ticks).map PcmBlob.samples).flatten
          = (ticks.map (fun b => b.getChannelData 0)).flatten) ∧
    (∀ ticks : List InputBuffer,
        (∀ b ∈ ticks, (b.getChannelData 0).length = 4096) →
        ∀ c ∈ sentChunks ticks, c.samples.length = 4096) := by
  refine ⟨fun _ => rfl, fun ticks => ⟨rfl, by simp [sentChunks]⟩, ?_, ?_⟩
  · intro ticks
    simp only [sentChunks, List.map_map]
    rw [show PcmBlob.samples ∘ onaudioprocess = (fun b : InputBuffer => b.getChannelData 0) from
      funext fun _ => rfl]
  · intro ticks h c hc
    rcases List.mem_map.1 hc with ⟨b, hb, rfl⟩
    exact h b hb

/-- Witness for C7: a tick whose channel 0 holds 4096 samples yields one
chunk of exactly those 4096 samples. -/
theorem c7_witness :
    (onaudioprocess { channels := [List.replicate 4096 (0:ℚ)] }).samples.length = 4096 := by
  refine c7_input_ticks_channel0.2.2.2 [{ channels := [List.replicate 4096 (0:ℚ)] }] ?_
    (onaudioprocess { channels := [List.replicate 4096 (0:ℚ)] }) ?_
  · intro b hb
    rcases List.mem_singleton.1 hb with rfl
    simp only [InputBuffer.getChannelData, List.getD_cons_zero, List.length_replicate]
  · exact List.mem_singleton.2 rfl

end ApexEngineer
